import Mathlib

/-!
Shallow embedding of the Scalekit Expo SDK authentication core
(src/src/types/index.ts and src/src/ScalekitProvider.tsx).

The platform collaborators (JSON.parse / JSON.stringify, atob, the secure
key-value store, the browser session, the HTTP fetch and the clock) are
modelled explicitly: stateful methods become pure functions over a record of
the three secure-store slots, with the clock, the browser outcome, the HTTP
response and store-delete fault flags passed as parameters.
-/

namespace SKModel

/-- JSON values as produced and consumed by the SDK through the platform
JSON primitive. Numbers are modelled as integers (the SDK only ever
serializes integral timestamps and second counts); fractional or exponent
number syntax is treated as unparsable, and unicode escapes in strings are
not modelled. No input exercised below uses either. -/
inductive Json where
  | null : Json
  | bool (b : Bool) : Json
  | num (n : Int) : Json
  | str (s : String) : Json
  | arr (elems : List Json) : Json
  | obj (fields : List (String × Json)) : Json

/-- Opening brace character, kept out of string literals. -/
def lbrace : Char := Char.ofNat 123

/-- Closing brace character, kept out of string literals. -/
def rbrace : Char := Char.ofNat 125

/-- JSON insignificant whitespace. -/
def isWsChar (c : Char) : Bool :=
  c = ' ' || c = '\n' || c = '\t' || c = '\r'

/-- Drop leading JSON whitespace. -/
def skipWs : List Char → List Char
  | [] => []
  | c :: cs => if isWsChar c then skipWs cs else c :: cs

/-- ASCII decimal digit test. -/
def isDigitChar (c : Char) : Bool := '0' ≤ c && c ≤ '9'

/-- Split a leading run of decimal digits from the input. -/
def takeDigits : List Char → (List Nat × List Char)
  | [] => ([], [])
  | c :: cs =>
    if isDigitChar c then
      let r := takeDigits cs
      ((c.toNat - 48) :: r.1, r.2)
    else ([], c :: cs)

/-- Value of a digit run read most-significant first. -/
def digitsToNat (ds : List Nat) : Nat :=
  ds.foldl (fun a d => a * 10 + d) 0

/-- After a digit run, a fraction or exponent marker is outside the modelled
JSON subset. -/
def numTailOk : List Char → Bool
  | [] => true
  | c :: _ => !(c = '.' || c = 'e' || c = 'E')

/-- Resolution of a JSON string escape character. -/
def unescape (c : Char) : Option Char :=
  if c = '"' then some '"'
  else if c = '\\' then some '\\'
  else if c = '/' then some '/'
  else if c = 'n' then some '\n'
  else if c = 't' then some '\t'
  else if c = 'r' then some '\r'
  else if c = 'b' then some (Char.ofNat 8)
  else if c = 'f' then some (Char.ofNat 12)
  else none

/-- Parse the body of a JSON string after its opening quote, returning the
decoded characters and the input remaining after the closing quote. -/
def parseStringBody : List Char → Option (List Char × List Char)
  | [] => none
  | c :: cs =>
    if c = '"' then some ([], cs)
    else if c = '\\' then
      match cs with
      | [] => none
      | e :: cs2 =>
        match unescape e with
        | none => none
        | some u =>
          match parseStringBody cs2 with
          | none => none
          | some r => some (u :: r.1, r.2)
    else
      match parseStringBody cs with
      | none => none
      | some r => some (c :: r.1, r.2)

mutual

/-- Fuelled recursive-descent parser for one JSON value. -/
def parseValue (fuel : Nat) (input : List Char) : Option (Json × List Char) :=
  match fuel with
  | 0 => none
  | fuel + 1 =>
    match skipWs input with
    | [] => none
    | c :: rest =>
      if c = '"' then
        match parseStringBody rest with
        | some r => some (.str (String.mk r.1), r.2)
        | none => none
      else if c = lbrace then
        match skipWs rest with
        | c2 :: r2 =>
          if c2 = rbrace then some (.obj [], r2)
          else parseMembers fuel (c2 :: r2)
        | [] => none
      else if c = '[' then
        match skipWs rest with
        | c2 :: r2 =>
          if c2 = ']' then some (.arr [], r2)
          else parseElems fuel (c2 :: r2)
        | [] => none
      else if c = 't' then
        match rest with
        | 'r' :: 'u' :: 'e' :: r => some (.bool true, r)
        | _ => none
      else if c = 'f' then
        match rest with
        | 'a' :: 'l' :: 's' :: 'e' :: r => some (.bool false, r)
        | _ => none
      else if c = 'n' then
        match rest with
        | 'u' :: 'l' :: 'l' :: r => some (.null, r)
        | _ => none
      else if c = '-' then
        match takeDigits rest with
        | ([], _) => none
        | (d :: ds, r) =>
          if numTailOk r then some (.num (-(digitsToNat (d :: ds) : Int)), r) else none
      else if isDigitChar c then
        let r := takeDigits (c :: rest)
        if numTailOk r.2 then some (.num (digitsToNat r.1), r.2) else none
      else none

/-- Fuelled parser for the members of a JSON object, starting at the first
key and consuming through the closing brace. -/
def parseMembers (fuel : Nat) (input : List Char) : Option (Json × List Char) :=
  match fuel with
  | 0 => none
  | fuel + 1 =>
    match skipWs input with
    | '"' :: r =>
      match parseStringBody r with
      | none => none
      | some kr =>
        match skipWs kr.2 with
        | ':' :: r3 =>
          match parseValue fuel r3 with
          | none => none
          | some vr =>
            match skipWs vr.2 with
            | [] => none
            | c :: r5 =>
              if c = ',' then
                match parseMembers fuel r5 with
                | some (.obj fs, r6) => some (.obj ((String.mk kr.1, vr.1) :: fs), r6)
                | _ => none
              else if c = rbrace then
                some (.obj [(String.mk kr.1, vr.1)], r5)
              else none
        | _ => none
    | _ => none

/-- Fuelled parser for the elements of a JSON array, starting at the first
element and consuming through the closing bracket. -/
def parseElems (fuel : Nat) (input : List Char) : Option (Json × List Char) :=
  match fuel with
  | 0 => none
  | fuel + 1 =>
    match parseValue fuel input with
    | none => none
    | some vr =>
      match skipWs vr.2 with
      | ',' :: r2 =>
        match parseElems fuel r2 with
        | some (.arr vs, r3) => some (.arr (vr.1 :: vs), r3)
        | _ => none
      | ']' :: r2 => some (.arr [vr.1], r2)
      | _ => none

end

/-- Model of the platform JSON.parse: `none` is a thrown SyntaxError. -/
def jsonParse (s : String) : Option Json :=
  match parseValue (2 * s.length + 8) s.toList with
  | some (j, rest) => if (skipWs rest).isEmpty then some j else none
  | none => none

/-- Escaping of one character inside a serialized JSON string. -/
def escapeChar (c : Char) : List Char :=
  if c = '"' then ['\\', '"']
  else if c = '\\' then ['\\', '\\']
  else if c = '\n' then ['\\', 'n']
  else if c = '\t' then ['\\', 't']
  else if c = '\r' then ['\\', 'r']
  else [c]

/-- Serialized form of a JSON string, quotes included. -/
def quoteString (s : String) : String :=
  "\"" ++ String.mk (s.toList.flatMap escapeChar) ++ "\""

mutual

/-- Model of the platform JSON.stringify on the modelled value space. -/
def jsonStringify : Json → String
  | .null => "null"
  | .bool true => "true"
  | .bool false => "false"
  | .num n => toString n
  | .str s => quoteString s
  | .arr vs => "[" ++ stringifyElems vs ++ "]"
  | .obj fs => String.mk [lbrace] ++ stringifyMembers fs ++ String.mk [rbrace]

/-- Comma-separated serialization of array elements. -/
def stringifyElems : List Json → String
  | [] => ""
  | [v] => jsonStringify v
  | v :: vs => jsonStringify v ++ "," ++ stringifyElems vs

/-- Comma-separated serialization of object members. -/
def stringifyMembers : List (String × Json) → String
  | [] => ""
  | [kv] => quoteString kv.1 ++ ":" ++ jsonStringify kv.2
  | kv :: fs => quoteString kv.1 ++ ":" ++ jsonStringify kv.2 ++ "," ++ stringifyMembers fs

end

/-- Field lookup on a parsed JSON object (dynamic property access). -/
def Json.lookupField : Json → String → Option Json
  | .obj fs, k => fs.lookup k
  | _, _ => none

/-- Dynamic access to a string-valued field. -/
def Json.getStr (j : Json) (k : String) : Option String :=
  match j.lookupField k with
  | some (.str s) => some s
  | _ => none

/-- Dynamic access to a number-valued field. -/
def Json.getNum (j : Json) (k : String) : Option Int :=
  match j.lookupField k with
  | some (.num n) => some n
  | _ => none

/-- OAuth token record (ScalekitTokens, src/src/types/index.ts lines 27-40).
Optional fields model TypeScript optionals; timestamps are integral
milliseconds. -/
structure ScalekitTokens where
  accessToken : String
  refreshToken : Option String
  idToken : Option String
  tokenType : String
  expiresIn : Int
  expiresAt : Int

deriving instance DecidableEq for ScalekitTokens

/-- Contents of the secure store under its three fixed keys
(STORAGE_KEYS.TOKENS = scalekit_tokens, STORAGE_KEYS.USER_INFO =
scalekit_user_info, STORAGE_KEYS.CODE_VERIFIER = pkce_code_verifier);
each slot holds an opaque string blob or is absent. -/
structure SecureStoreState where
  tokens : Option String
  userInfo : Option String
  codeVerifier : Option String

deriving instance DecidableEq for SecureStoreState

/-- In-memory auth state (ScalekitAuthState, src/src/types/index.ts lines
67-78). The user claims are the dynamic object returned by decoding the
identity token. -/
structure ScalekitAuthState where
  isLoading : Bool
  isAuthenticated : Bool
  user : Option Json
  tokens : Option ScalekitTokens
  error : Option String

/-- Fault injection for the secure store's deleteItemAsync: one flag per
fixed key; a set flag means the delete for that key rejects and leaves the
slot in place. -/
structure DeleteFaults where
  tokensDeleteFails : Bool
  userDeleteFails : Bool
  verifierDeleteFails : Bool

deriving instance DecidableEq for DeleteFaults

/-- At least one of the three deletes rejects. -/
def DeleteFaults.any (f : DeleteFaults) : Bool :=
  f.tokensDeleteFails || f.userDeleteFails || f.verifierDeleteFails

/-- Response body fields of a successful token-endpoint POST
(response.json(), src/src/types/index.ts lines 303-312). -/
structure TokenResponseData where
  access_token : String
  refresh_token : Option String
  id_token : Option String
  token_type : String
  expires_in : Int

deriving instance DecidableEq for TokenResponseData

/-- Outcome of the token-endpoint POST: a successful response with a JSON
body, or a non-ok response carrying its body text. -/
inductive HttpTokenResponse where
  | ok (data : TokenResponseData)
  | err (body : String)

/-- Result of exchangeCodeForTokens: the returned record or thrown error
message, the secure store afterwards, and whether the token-endpoint POST
was issued. -/
structure ExchangeResult where
  outcome : Except String ScalekitTokens
  store : SecureStoreState
  networkCalled : Bool

/-- Serialization shape of a token record as JSON.stringify produces it
(field insertion order of src/src/types/index.ts lines 305-312; undefined
optionals are omitted). -/
def tokensToJson (t : ScalekitTokens) : Json :=
  .obj ([("accessToken", Json.str t.accessToken)] ++
    (match t.refreshToken with
     | some r => [("refreshToken", Json.str r)]
     | none => []) ++
    (match t.idToken with
     | some i => [("idToken", Json.str i)]
     | none => []) ++
    [("tokenType", Json.str t.tokenType),
     ("expiresIn", Json.num t.expiresIn),
     ("expiresAt", Json.num t.expiresAt)])

/-- Reading of a parsed JSON value as a token record; this models the
TypeScript-level cast of JSON.parse's result to ScalekitTokens in
getStoredTokens. -/
def tokensOfJson (j : Json) : Option ScalekitTokens :=
  match j.getStr "accessToken", j.getStr "tokenType",
        j.getNum "expiresIn", j.getNum "expiresAt" with
  | some a, some tt, some ei, some ea =>
    some ⟨a, j.getStr "refreshToken", j.getStr "idToken", tt, ei, ea⟩
  | _, _, _, _ => none

/-- Message thrown by exchangeCodeForTokens when no PKCE verifier is stored
(src/src/types/index.ts line 279). -/
def missingVerifierMsg : String :=
  "Code verifier not found. Please restart the login flow."

/-- Message thrown by decodeIdToken's catch block for every decode failure
(src/src/types/index.ts line 349). -/
def decodeFailedMsg : String :=
  "Failed to decode user information from id_token"

/-- ScalekitAuth.areTokensExpired (src/src/types/index.ts lines 400-403):
Date.now() is the explicit `now` parameter. -/
def ScalekitAuth.areTokensExpired (now : Int) (tokens : ScalekitTokens) : Bool :=
  now ≥ tokens.expiresAt - 60000

/-- Body of ScalekitAuth.getStoredTokens's try block (src/src/types/index.ts
lines 376-377): an error value is a throw escaping JSON.parse. -/
def ScalekitAuth.getStoredTokensAttempt (store : SecureStoreState) :
    Except String (Option ScalekitTokens) :=
  match store.tokens with
  | none => .ok none
  | some blob =>
    match jsonParse blob with
    | none => .error "SyntaxError: JSON.parse"
    | some j => .ok (tokensOfJson j)

/-- ScalekitAuth.getStoredTokens (src/src/types/index.ts lines 374-382):
the catch block turns any throw into null. -/
def ScalekitAuth.getStoredTokens (store : SecureStoreState) : Option ScalekitTokens :=
  match ScalekitAuth.getStoredTokensAttempt store with
  | .ok r => r
  | .error _ => none

/-- Body of ScalekitAuth.getStoredUserInfo's try block (src/src/types/index.ts
lines 389-390). -/
def ScalekitAuth.getStoredUserInfoAttempt (store : SecureStoreState) :
    Except String (Option Json) :=
  match store.userInfo with
  | none => .ok none
  | some blob =>
    match jsonParse blob with
    | none => .error "SyntaxError: JSON.parse"
    | some j => .ok (some j)

/-- ScalekitAuth.getStoredUserInfo (src/src/types/index.ts lines 387-395):
the catch block turns any throw into null. -/
def ScalekitAuth.getStoredUserInfo (store : SecureStoreState) : Option Json :=
  match ScalekitAuth.getStoredUserInfoAttempt store with
  | .ok r => r
  | .error _ => none

/-- ScalekitAuth.logout (src/src/types/index.ts lines 408-419): Promise.all
of the three deletes. Every delete runs; a faulted delete leaves its slot.
The Bool is true when the combined promise rejected, in which case the catch
block rethrows. -/
def ScalekitAuth.logout (f : DeleteFaults) (store : SecureStoreState) :
    SecureStoreState × Bool :=
  (⟨if f.tokensDeleteFails then store.tokens else none,
    if f.userDeleteFails then store.userInfo else none,
    if f.verifierDeleteFails then store.codeVerifier else none⟩,
   f.any)

/-- Token record built from a successful exchange response
(src/src/types/index.ts lines 305-312): absolute expiry is local receipt
time plus expires_in seconds in milliseconds. -/
def exchangedTokens (data : TokenResponseData) (now : Int) : ScalekitTokens :=
  ⟨data.access_token, data.refresh_token, data.id_token,
   data.token_type, data.expires_in, now + data.expires_in * 1000⟩

/-- ScalekitAuth.exchangeCodeForTokens (src/src/types/index.ts lines
274-325), with the clock and the HTTP response as parameters. The thrown
errors of the try block propagate through the rethrowing catch. -/
def ScalekitAuth.exchangeCodeForTokens (resp : HttpTokenResponse) (now : Int)
    (code : String) (store : SecureStoreState) : ExchangeResult :=
  match store.codeVerifier with
  | none => ⟨.error missingVerifierMsg, store, false⟩
  | some _ =>
    match resp with
    | .err body => ⟨.error ("Token exchange failed: " ++ body), store, true⟩
    | .ok data =>
      let tokens : ScalekitTokens := exchangedTokens data now
      ⟨.ok tokens,
       ⟨some (jsonStringify (tokensToJson tokens)), store.userInfo, none⟩,
       true⟩

/-- Mapping of base64url alphabet back to the standard base64 alphabet,
applied characterwise (the two regex replaces at src/src/types/index.ts
line 343). -/
def base64UrlToBase64 (c : Char) : Char :=
  if c = '-' then '+' else if c = '_' then '/' else c

/-- Value of one character of the standard base64 alphabet. -/
def b64CharVal (c : Char) : Option Nat :=
  if 'A' ≤ c && c ≤ 'Z' then some (c.toNat - 65)
  else if 'a' ≤ c && c ≤ 'z' then some (c.toNat - 97 + 26)
  else if '0' ≤ c && c ≤ '9' then some (c.toNat - 48 + 52)
  else if c = '+' then some 62
  else if c = '/' then some 63
  else none

/-- Base64 decoding of four-character groups with trailing '=' padding;
`none` is a thrown InvalidCharacterError. -/
def atobBytes : List Char → Option (List Nat)
  | [] => some []
  | c1 :: c2 :: c3 :: c4 :: rest =>
    match b64CharVal c1, b64CharVal c2 with
    | some v1, some v2 =>
      if c3 = '=' then
        if c4 = '=' && rest.isEmpty then some [v1 * 4 + v2 / 16] else none
      else
        match b64CharVal c3 with
        | some v3 =>
          if c4 = '=' then
            if rest.isEmpty then
              some [v1 * 4 + v2 / 16, (v2 % 16) * 16 + v3 / 4]
            else none
          else
            match b64CharVal c4 with
            | some v4 =>
              match atobBytes rest with
              | some bs =>
                some ([v1 * 4 + v2 / 16, (v2 % 16) * 16 + v3 / 4,
                       (v3 % 4) * 64 + v4] ++ bs)
              | none => none
            | none => none
        | none => none
    | _, _ => none
  | _ => none

/-- Model of the JavaScript single-character String.split: every separator
occurrence cuts, and the empty string yields one empty segment. -/
def splitOnChar (sep : Char) : List Char → List (List Char)
  | [] => [[]]
  | c :: rest =>
    let r := splitOnChar sep rest
    if c = sep then [] :: r
    else
      match r with
      | h :: t => (c :: h) :: t
      | [] => [[c]]

/-- Segments of idToken.split at dots, as strings. -/
def jwtParts (idToken : String) : List String :=
  (splitOnChar '.' idToken.toList).map String.mk

/-- ScalekitAuth.decodeIdToken (src/src/types/index.ts lines 330-351): split
into dot-separated segments, re-pad and base64-decode the middle one, parse
it as JSON; the catch block maps every failure, segment-count or otherwise,
to the same thrown message. -/
def ScalekitAuth.decodeIdToken (idToken : String) : Except String Json :=
  match splitOnChar '.' idToken.toList with
  | [_, payload, _] =>
    let paddedPayload := payload ++ List.replicate ((4 - payload.length % 4) % 4) '='
    match atobBytes (paddedPayload.map base64UrlToBase64) with
    | none => .error decodeFailedMsg
    | some bytes =>
      match jsonParse (String.mk (bytes.map Char.ofNat)) with
      | none => .error decodeFailedMsg
      | some userInfo => .ok userInfo
  | _ => .error decodeFailedMsg

/-- ScalekitAuth.getUserInfo (src/src/types/index.ts lines 356-369): decode
the identity token, persist the claims blob, return the claims; the catch
block rethrows decode failures. -/
def ScalekitAuth.getUserInfo (idToken : String) (store : SecureStoreState) :
    Except String (Json × SecureStoreState) :=
  match ScalekitAuth.decodeIdToken idToken with
  | .error e => .error e
  | .ok userInfo =>
    .ok (userInfo, ⟨store.tokens, some (jsonStringify userInfo), store.codeVerifier⟩)

/-- Resolution of the browser auth session
(WebBrowser.openAuthSessionAsync): a success outcome carries the `code`
query parameter of the callback URL as the provider reads it, `locked` is
any other non-cancel result kind. -/
inductive WebBrowserResult where
  | success (code : Option String)
  | dismiss
  | cancel
  | locked

/-- Environment of one login() run: the generated PKCE verifier, the
browser outcome, the token-endpoint response and the clock reading at
exchange time. -/
structure LoginEnv where
  codeVerifier : String
  browserResult : WebBrowserResult
  tokenResponse : HttpTokenResponse
  now : Int

/-- State written by login()'s catch block (src/src/ScalekitProvider.tsx
lines 179-185): a full reset with the failure message. -/
def loginFailureState (msg : String) : ScalekitAuthState :=
  ⟨false, false, none, none, some msg⟩

/-- State written when no valid session exists (src/src/ScalekitProvider.tsx
lines 107-113 and 198-204). -/
def unauthenticatedState : ScalekitAuthState :=
  ⟨false, false, none, none, none⟩

/-- State written by initAuth's catch block (src/src/ScalekitProvider.tsx
lines 117-123). -/
def initFailureState : ScalekitAuthState :=
  ⟨false, false, none, none, some "Failed to initialize authentication"⟩

/-- The provider's initAuth effect (src/src/ScalekitProvider.tsx lines
86-128): restore a stored session, cleaning up via ScalekitAuth.logout when
stored tokens exist but the session is not valid; a throw out of that
cleanup is caught into the failure state. -/
def Provider.initAuth (f : DeleteFaults) (now : Int) (store : SecureStoreState) :
    ScalekitAuthState × SecureStoreState :=
  match ScalekitAuth.getStoredTokens store, ScalekitAuth.getStoredUserInfo store with
  | some storedTokens, some storedUser =>
    if !ScalekitAuth.areTokensExpired now storedTokens then
      (⟨false, true, some storedUser, some storedTokens, none⟩, store)
    else
      let r := ScalekitAuth.logout f store
      if r.2 then (initFailureState, r.1) else (unauthenticatedState, r.1)
  | some _, none =>
    let r := ScalekitAuth.logout f store
    if r.2 then (initFailureState, r.1) else (unauthenticatedState, r.1)
  | none, _ => (unauthenticatedState, store)

/-- The provider's login callback (src/src/ScalekitProvider.tsx lines
133-189). The first setAuthState (isLoading true, error cleared) is folded
into the branch results; ScalekitAuth.login's effect is the verifier write
before the browser opens. -/
def Provider.login (env : LoginEnv) (prev : ScalekitAuthState)
    (store : SecureStoreState) : ScalekitAuthState × SecureStoreState :=
  let store0 : SecureStoreState :=
    ⟨store.tokens, store.userInfo, some env.codeVerifier⟩
  match env.browserResult with
  | .success ocode =>
    match ocode with
    | none => (loginFailureState "No authorization code received", store0)
    | some code =>
      let ex := ScalekitAuth.exchangeCodeForTokens env.tokenResponse env.now code store0
      match ex.outcome with
      | .error e => (loginFailureState e, ex.store)
      | .ok tokens =>
        match tokens.idToken with
        | none => (loginFailureState "No id_token received from Scalekit", ex.store)
        | some idt =>
          match ScalekitAuth.getUserInfo idt ex.store with
          | .error e => (loginFailureState e, ex.store)
          | .ok ur => (⟨false, true, some ur.1, some tokens, none⟩, ur.2)
  | .dismiss =>
    (⟨false, prev.isAuthenticated, prev.user, prev.tokens, none⟩, store0)
  | .cancel =>
    (⟨false, prev.isAuthenticated, prev.user, prev.tokens, none⟩, store0)
  | .locked => (loginFailureState "Authentication was not successful", store0)

/-- The provider's logout callback (src/src/ScalekitProvider.tsx lines
194-213): on success a full reset, on a rethrown store failure the previous
state is kept with only isLoading and error updated. -/
def Provider.logout (f : DeleteFaults) (prev : ScalekitAuthState)
    (store : SecureStoreState) : ScalekitAuthState × SecureStoreState :=
  let r := ScalekitAuth.logout f store
  if r.2 then
    (⟨false, prev.isAuthenticated, prev.user, prev.tokens, some "Failed to logout"⟩, r.1)
  else
    (unauthenticatedState, r.1)

/-- The provider's getAccessToken callback (src/src/ScalekitProvider.tsx
lines 235-241). -/
def Provider.getAccessToken (now : Int) (store : SecureStoreState) : Option String :=
  match ScalekitAuth.getStoredTokens store with
  | none => none
  | some tokens =>
    if ScalekitAuth.areTokensExpired now tokens then none
    else some tokens.accessToken

/-! Concrete sample data reused by witnesses and counterexamples. -/

/-- Sample token record with absolute expiry 5000000 ms. -/
def demoTokens : ScalekitTokens := ⟨"at1", none, none, "Bearer", 3600, 5000000⟩

/-- Serialized blob of demoTokens as the SDK would store it. -/
def demoTokensBlob : String :=
  "\x7b\"accessToken\":\"at1\",\"tokenType\":\"Bearer\",\"expiresIn\":3600,\"expiresAt\":5000000\x7d"

/-- Sample stored user claims. -/
def demoUser : Json := Json.obj [("sub", Json.str "u1")]

/-- Serialized blob of demoUser as the SDK would store it. -/
def demoUserBlob : String := "\x7b\"sub\":\"u1\"\x7d"

/-- Secure store holding demoTokens and demoUser, no pending verifier. -/
def demoStoreFull : SecureStoreState := ⟨some demoTokensBlob, some demoUserBlob, none⟩

/-- Sample successful token-endpoint response body. -/
def demoData : TokenResponseData := ⟨"at2", none, some "idt", "Bearer", 3600⟩

/-! Claim theorems. -/

/-- C3: a token record is judged expired exactly when now is at least
expiresAt minus 60000 milliseconds; in particular expiry at now+120000 is
not expired, while now+30000 and now−1 are expired. -/
theorem C3_expiry_policy (now : Int) (t : ScalekitTokens) :
    (ScalekitAuth.areTokensExpired now t = true ↔ now ≥ t.expiresAt - 60000) ∧
    (t.expiresAt = now + 120000 → ScalekitAuth.areTokensExpired now t = false) ∧
    (t.expiresAt = now + 30000 → ScalekitAuth.areTokensExpired now t = true) ∧
    (t.expiresAt = now - 1 → ScalekitAuth.areTokensExpired now t = true) := by
  refine ⟨by simp [ScalekitAuth.areTokensExpired], ?_, ?_, ?_⟩ <;>
    intro h <;> simp [ScalekitAuth.areTokensExpired, h] <;> omega

/-- C3 witness: the three boundary samples at now = 1000000. -/
theorem C3_expiry_policy_witness :
    ScalekitAuth.areTokensExpired 1000000 ⟨"a", none, none, "Bearer", 120, 1120000⟩ = false ∧
    ScalekitAuth.areTokensExpired 1000000 ⟨"a", none, none, "Bearer", 30, 1030000⟩ = true ∧
    ScalekitAuth.areTokensExpired 1000000 ⟨"a", none, none, "Bearer", 0, 999999⟩ = true :=
  ⟨(C3_expiry_policy 1000000 ⟨"a", none, none, "Bearer", 120, 1120000⟩).2.1 (by norm_num),
   (C3_expiry_policy 1000000 ⟨"a", none, none, "Bearer", 30, 1030000⟩).2.2.1 (by norm_num),
   (C3_expiry_policy 1000000 ⟨"a", none, none, "Bearer", 0, 999999⟩).2.2.2 (by norm_num)⟩

/-- C4: with no stored PKCE verifier, exchangeCodeForTokens fails with the
missing-verifier error, leaves the store untouched and never issues the
token-endpoint POST. -/
theorem C4_exchange_missing_verifier (resp : HttpTokenResponse) (now : Int)
    (code : String) (store : SecureStoreState) (h : store.codeVerifier = none) :
    ScalekitAuth.exchangeCodeForTokens resp now code store =
      ⟨Except.error missingVerifierMsg, store, false⟩ := by
  unfold ScalekitAuth.exchangeCodeForTokens
  rw [h]

/-- C4 witness: a concrete exchange attempt with an empty store. -/
theorem C4_exchange_missing_verifier_witness :
    ScalekitAuth.exchangeCodeForTokens (HttpTokenResponse.err "boom") 0 "c"
        ⟨none, none, none⟩ =
      ⟨Except.error missingVerifierMsg, ⟨none, none, none⟩, false⟩ :=
  C4_exchange_missing_verifier (HttpTokenResponse.err "boom") 0 "c"
    ⟨none, none, none⟩ rfl

/-- C8 counterexample: with a present but unparsable tokens blob the try
block of getStoredTokens does throw, yet the read returns the absent value
to the caller instead of propagating any error. -/
theorem C8_counterexample :
    ScalekitAuth.getStoredTokensAttempt ⟨some "corrupt!", none, none⟩ =
      Except.error "SyntaxError: JSON.parse" ∧
    ScalekitAuth.getStoredTokens ⟨some "corrupt!", none, none⟩ = none :=
  ⟨rfl, rfl⟩

/-- C8 amended: reads of missing blobs return absent, and when a present
blob makes JSON parsing throw, the error is caught inside the read, which
again returns absent — corruption is never propagated to the caller. -/
theorem C8_reads_amended (store : SecureStoreState) :
    (store.tokens = none → ScalekitAuth.getStoredTokens store = none) ∧
    (∀ blob, store.tokens = some blob → jsonParse blob = none →
      ScalekitAuth.getStoredTokensAttempt store = Except.error "SyntaxError: JSON.parse" ∧
      ScalekitAuth.getStoredTokens store = none) ∧
    (store.userInfo = none → ScalekitAuth.getStoredUserInfo store = none) ∧
    (∀ blob, store.userInfo = some blob → jsonParse blob = none →
      ScalekitAuth.getStoredUserInfo store = none) := by
  refine ⟨?_, ?_, ?_, ?_⟩
  · intro h
    unfold ScalekitAuth.getStoredTokens ScalekitAuth.getStoredTokensAttempt
    rw [h]
  · intro blob h hp
    constructor <;>
      simp [ScalekitAuth.getStoredTokens, ScalekitAuth.getStoredTokensAttempt, h, hp]
  · intro h
    unfold ScalekitAuth.getStoredUserInfo ScalekitAuth.getStoredUserInfoAttempt
    rw [h]
  · intro blob h hp
    simp [ScalekitAuth.getStoredUserInfo, ScalekitAuth.getStoredUserInfoAttempt, h, hp]

/-- C8 witness: a concrete corrupt blob read as absent. -/
theorem C8_reads_amended_witness :
    ScalekitAuth.getStoredTokens ⟨some "notjson", none, none⟩ = none :=
  ((C8_reads_amended ⟨some "notjson", none, none⟩).2.1 "notjson" rfl rfl).2

/-- C6 counterexample: a token that does split into three dot-separated
segments on which the decoder still fails (its middle segment decodes to
the non-JSON text abc), refuting the exactly-when characterization. -/
theorem C6_counterexample :
    (jwtParts "x.YWJj.z").length = 3 ∧
    ScalekitAuth.decodeIdToken "x.YWJj.z" = Except.error decodeFailedMsg :=
  ⟨rfl, rfl⟩

/-- C6 amended: the decoder fails with the single decode-failure error
whenever the segment count differs from three (though not only then: a
three-segment token with an undecodable payload fails too); the round trip
for the sample payload returns sub u1 and email a@b.com, and a two-segment
token fails. -/
theorem C6_decode_amended :
    (∀ s : String, (jwtParts s).length ≠ 3 →
      ScalekitAuth.decodeIdToken s = Except.error decodeFailedMsg) ∧
    (∃ claims : Json,
      ScalekitAuth.decodeIdToken "h.eyJzdWIiOiJ1MSIsImVtYWlsIjoiYUBiLmNvbSJ9.s" =
        Except.ok claims ∧
      claims.getStr "sub" = some "u1" ∧
      claims.getStr "email" = some "a@b.com") ∧
    ScalekitAuth.decodeIdToken "a.b" = Except.error decodeFailedMsg := by
  refine ⟨?_, ⟨Json.obj [("sub", Json.str "u1"), ("email", Json.str "a@b.com")],
    rfl, rfl, rfl⟩, rfl⟩
  intro s h
  rw [jwtParts, List.length_map] at h
  unfold ScalekitAuth.decodeIdToken
  cases hs : splitOnChar '.' s.toList with
  | nil => rfl
  | cons a l1 =>
    cases l1 with
    | nil => rfl
    | cons b l2 =>
      cases l2 with
      | nil => rfl
      | cons c l3 =>
        cases l3 with
        | nil => exact absurd (by rw [hs]; rfl) h
        | cons d l4 => rfl

/-- C6 witness: a dotless string has one segment and fails to decode. -/
theorem C6_decode_amended_witness :
    ScalekitAuth.decodeIdToken "nodots" = Except.error decodeFailedMsg :=
  C6_decode_amended.1 "nodots" (by decide)

/-- C1 counterexample: when the delete of the tokens key rejects, logout
leaves isAuthenticated true — the previous state is kept and only isLoading
and the error field change, so the transition to Unauthenticated is
blocked. -/
theorem C1_counterexample :
    (Provider.logout ⟨true, false, false⟩
        ⟨false, true, some demoUser, some demoTokens, none⟩
        demoStoreFull).1.isAuthenticated = true ∧
    (Provider.logout ⟨true, false, false⟩
        ⟨false, true, some demoUser, some demoTokens, none⟩
        demoStoreFull).1.error = some "Failed to logout" :=
  ⟨rfl, rfl⟩

/-- C1 amended: when all three deletes succeed, logout ends unauthenticated
with a cleared store; when any delete rejects, the error field reports the
failure but the previous isAuthenticated, user and tokens are kept — the
transition to Unauthenticated is blocked rather than unconditional. -/
theorem C1_logout_amended (f : DeleteFaults) (s : ScalekitAuthState)
    (store : SecureStoreState) :
    (f.any = false →
      Provider.logout f s store = (unauthenticatedState, ⟨none, none, none⟩)) ∧
    (f.any = true →
      (Provider.logout f s store).1.isAuthenticated = s.isAuthenticated ∧
      (Provider.logout f s store).1.user = s.user ∧
      (Provider.logout f s store).1.tokens = s.tokens ∧
      (Provider.logout f s store).1.isLoading = false ∧
      (Provider.logout f s store).1.error = some "Failed to logout") := by
  obtain ⟨a, b, c⟩ := f
  constructor
  · intro h
    simp only [DeleteFaults.any, Bool.or_eq_false_iff] at h
    obtain ⟨⟨h1, h2⟩, h3⟩ := h
    simp [Provider.logout, ScalekitAuth.logout, DeleteFaults.any, h1, h2, h3,
      unauthenticatedState]
  · intro h
    simp [Provider.logout, ScalekitAuth.logout, DeleteFaults.any] at h ⊢
    simp [h]

/-- C1 witness: a fault-free logout from an authenticated state. -/
theorem C1_logout_amended_witness :
    Provider.logout ⟨false, false, false⟩
        ⟨false, true, some demoUser, some demoTokens, none⟩ demoStoreFull =
      (unauthenticatedState, ⟨none, none, none⟩) :=
  (C1_logout_amended ⟨false, false, false⟩
    ⟨false, true, some demoUser, some demoTokens, none⟩ demoStoreFull).1 rfl

/-- C7: getAccessToken returns the stored access token when a token record
is present and unexpired, and the absent value when tokens are missing,
expired, or the stored blob is unreadable; being a total function into an
option it never throws. -/
theorem C7_get_access_token (now : Int) (store : SecureStoreState) :
    (∀ t, ScalekitAuth.getStoredTokens store = some t →
      ScalekitAuth.areTokensExpired now t = false →
      Provider.getAccessToken now store = some t.accessToken) ∧
    (ScalekitAuth.getStoredTokens store = none →
      Provider.getAccessToken now store = none) ∧
    (∀ t, ScalekitAuth.getStoredTokens store = some t →
      ScalekitAuth.areTokensExpired now t = true →
      Provider.getAccessToken now store = none) ∧
    (∀ blob, store.tokens = some blob → jsonParse blob = none →
      Provider.getAccessToken now store = none) := by
  refine ⟨?_, ?_, ?_, ?_⟩
  · intro t h he
    simp [Provider.getAccessToken, h, he]
  · intro h
    simp [Provider.getAccessToken, h]
  · intro t h he
    simp [Provider.getAccessToken, h, he]
  · intro blob h hp
    have h2 : ScalekitAuth.getStoredTokens store = none := by
      simp [ScalekitAuth.getStoredTokens, ScalekitAuth.getStoredTokensAttempt, h, hp]
    simp [Provider.getAccessToken, h2]

/-- C7 witness: the demo store yields its unexpired stored access token. -/
theorem C7_get_access_token_witness :
    Provider.getAccessToken 1000 demoStoreFull = some "at1" :=
  (C7_get_access_token 1000 demoStoreFull).1 demoTokens rfl rfl

/-- C9 counterexample: login invoked from an authenticated state and
cancelled by the user keeps isAuthenticated true, refuting the for-every-
state claim of a transition to Unauthenticated. -/
theorem C9_counterexample :
    (Provider.login ⟨"ver", WebBrowserResult.cancel, HttpTokenResponse.err "x", 0⟩
        ⟨false, true, some demoUser, some demoTokens, none⟩
        ⟨none, none, none⟩).1.isAuthenticated = true := rfl

/-- C9 amended: a cancelled or dismissed login ends with isLoading false and
error cleared while preserving the previous isAuthenticated, so from any
state with isAuthenticated false the outcome is exactly the claimed
unauthenticated, error-free, non-loading state. -/
theorem C9_login_cancel_amended (env : LoginEnv) (s : ScalekitAuthState)
    (store : SecureStoreState)
    (hb : env.browserResult = WebBrowserResult.cancel ∨
          env.browserResult = WebBrowserResult.dismiss) :
    (Provider.login env s store).1.isLoading = false ∧
    (Provider.login env s store).1.error = none ∧
    (Provider.login env s store).1.isAuthenticated = s.isAuthenticated ∧
    (s.isAuthenticated = false →
      (Provider.login env s store).1.isAuthenticated = false) := by
  rcases hb with h | h <;> simp [Provider.login, h]

/-- C9 witness: a dismissed login from the unauthenticated state. -/
theorem C9_login_cancel_amended_witness :
    (Provider.login ⟨"ver", WebBrowserResult.dismiss, HttpTokenResponse.err "x", 0⟩
        unauthenticatedState ⟨none, none, none⟩).1.isAuthenticated = false ∧
    (Provider.login ⟨"ver", WebBrowserResult.dismiss, HttpTokenResponse.err "x", 0⟩
        unauthenticatedState ⟨none, none, none⟩).1.error = none ∧
    (Provider.login ⟨"ver", WebBrowserResult.dismiss, HttpTokenResponse.err "x", 0⟩
        unauthenticatedState ⟨none, none, none⟩).1.isLoading = false := by
  have h := C9_login_cancel_amended
    ⟨"ver", WebBrowserResult.dismiss, HttpTokenResponse.err "x", 0⟩
    unauthenticatedState ⟨none, none, none⟩ (Or.inr rfl)
  exact ⟨h.2.2.2 rfl, h.2.1, h.1⟩

/-- C2: startup restore ends authenticated with exactly the stored user and
token record when both are stored and unexpired; an expired stored record
is cleaned up so a subsequent load of tokens returns absent; an empty store
ends unauthenticated; and a failure thrown during the cleanup is caught
into an unauthenticated state with the error field populated. -/
theorem C2_init_auth (f : DeleteFaults) (now : Int) (store : SecureStoreState) :
    (∀ t u, ScalekitAuth.getStoredTokens store = some t →
      ScalekitAuth.getStoredUserInfo store = some u →
      ScalekitAuth.areTokensExpired now t = false →
      Provider.initAuth f now store = (⟨false, true, some u, some t, none⟩, store)) ∧
    (∀ t, ScalekitAuth.getStoredTokens store = some t →
      ScalekitAuth.areTokensExpired now t = true →
      f.any = false →
      Provider.initAuth f now store = (unauthenticatedState, ⟨none, none, none⟩) ∧
      ScalekitAuth.getStoredTokens (Provider.initAuth f now store).2 = none) ∧
    (store = ⟨none, none, none⟩ →
      Provider.initAuth f now store = (unauthenticatedState, store)) ∧
    (∀ t, ScalekitAuth.getStoredTokens store = some t →
      ScalekitAuth.areTokensExpired now t = true →
      f.any = true →
      (Provider.initAuth f now store).1.isAuthenticated = false ∧
      (Provider.initAuth f now store).1.error =
        some "Failed to initialize authentication") := by
  obtain ⟨a, b, c⟩ := f
  refine ⟨?_, ?_, ?_, ?_⟩
  · intro t u ht hu he
    simp [Provider.initAuth, ht, hu, he]
  · intro t ht he hf
    simp only [DeleteFaults.any, Bool.or_eq_false_iff] at hf
    obtain ⟨⟨h1, h2⟩, h3⟩ := hf
    have hr : Provider.initAuth ⟨a, b, c⟩ now store =
        (unauthenticatedState, ⟨none, none, none⟩) := by
      cases hu : ScalekitAuth.getStoredUserInfo store with
      | none =>
        simp [Provider.initAuth, ht, hu, ScalekitAuth.logout, DeleteFaults.any,
          h1, h2, h3]
      | some u =>
        simp [Provider.initAuth, ht, hu, he, ScalekitAuth.logout, DeleteFaults.any,
          h1, h2, h3]
    rw [hr]
    exact ⟨rfl, rfl⟩
  · intro h
    subst h
    rfl
  · intro t ht he hf
    have hcond : (a = true ∨ b = true) ∨ c = true := by
      simp only [DeleteFaults.any, Bool.or_eq_true] at hf
      tauto
    cases hu : ScalekitAuth.getStoredUserInfo store with
    | none =>
      simp [Provider.initAuth, ht, hu, ScalekitAuth.logout, DeleteFaults.any, hcond,
        initFailureState]
    | some u =>
      simp [Provider.initAuth, ht, hu, he, ScalekitAuth.logout, DeleteFaults.any, hcond,
        initFailureState]

/-- C2 witness: restoring the demo store at time 1000 ends authenticated
with exactly the stored user and token record. -/
theorem C2_init_auth_witness :
    Provider.initAuth ⟨false, false, false⟩ 1000 demoStoreFull =
      (⟨false, true, some demoUser, some demoTokens, none⟩, demoStoreFull) :=
  (C2_init_auth ⟨false, false, false⟩ 1000 demoStoreFull).1 demoTokens demoUser
    rfl rfl rfl

/-- C5: a successful exchange with a stored verifier returns the record
whose absolute expiry is receipt time plus expires_in seconds in
milliseconds, persists its serialization under the tokens key, deletes the
stored verifier, and a second exchange on the resulting store fails with
the missing-verifier error without any network call. -/
theorem C5_exchange_success (data : TokenResponseData) (now : Int) (code : String)
    (store : SecureStoreState) (v : String) (h : store.codeVerifier = some v) :
    (ScalekitAuth.exchangeCodeForTokens (.ok data) now code store).outcome =
      Except.ok (exchangedTokens data now) ∧
    (exchangedTokens data now).expiresAt = now + data.expires_in * 1000 ∧
    (ScalekitAuth.exchangeCodeForTokens (.ok data) now code store).store.tokens =
      some (jsonStringify (tokensToJson (exchangedTokens data now))) ∧
    (ScalekitAuth.exchangeCodeForTokens (.ok data) now code store).store.codeVerifier =
      none ∧
    (∀ resp2 now2 code2,
      ScalekitAuth.exchangeCodeForTokens resp2 now2 code2
          (ScalekitAuth.exchangeCodeForTokens (.ok data) now code store).store =
        ⟨Except.error missingVerifierMsg,
         (ScalekitAuth.exchangeCodeForTokens (.ok data) now code store).store,
         false⟩) := by
  refine ⟨?_, rfl, ?_, ?_, ?_⟩ <;>
    simp [ScalekitAuth.exchangeCodeForTokens, h]

/-- C5 witness: a concrete successful exchange at receipt time 0. -/
theorem C5_exchange_success_witness :
    (ScalekitAuth.exchangeCodeForTokens (HttpTokenResponse.ok demoData) 0 "c"
        ⟨none, none, some "ver"⟩).outcome =
      Except.ok (exchangedTokens demoData 0) ∧
    (ScalekitAuth.exchangeCodeForTokens (HttpTokenResponse.ok demoData) 0 "c"
        ⟨none, none, some "ver"⟩).store.codeVerifier = none := by
  have h := C5_exchange_success demoData 0 "c" ⟨none, none, some "ver"⟩ "ver" rfl
  exact ⟨h.1, h.2.2.2.1⟩

/-- C10 counterexample: a login that fails after a successful exchange (the
response lacks an id_token) resets the in-memory state, but the previously
persisted token record is overwritten by the newly exchanged one, so
getAccessToken afterwards returns the new access token and can no longer
return the old stored one. -/
theorem C10_counterexample :
    (Provider.login
        ⟨"ver", WebBrowserResult.success (some "c"),
         HttpTokenResponse.ok ⟨"new_at", none, none, "Bearer", 3600⟩, 0⟩
        unauthenticatedState demoStoreFull).1.isAuthenticated = false ∧
    (Provider.login
        ⟨"ver", WebBrowserResult.success (some "c"),
         HttpTokenResponse.ok ⟨"new_at", none, none, "Bearer", 3600⟩, 0⟩
        unauthenticatedState demoStoreFull).1.error =
      some "No id_token received from Scalekit" ∧
    (Provider.login
        ⟨"ver", WebBrowserResult.success (some "c"),
         HttpTokenResponse.ok ⟨"new_at", none, none, "Bearer", 3600⟩, 0⟩
        unauthenticatedState demoStoreFull).2.tokens ≠ demoStoreFull.tokens ∧
    Provider.getAccessToken 0
        (Provider.login
          ⟨"ver", WebBrowserResult.success (some "c"),
           HttpTokenResponse.ok ⟨"new_at", none, none, "Bearer", 3600⟩, 0⟩
          unauthenticatedState demoStoreFull).2 = some "new_at" ∧
    Provider.getAccessToken 0
        (Provider.login
          ⟨"ver", WebBrowserResult.success (some "c"),
           HttpTokenResponse.ok ⟨"new_at", none, none, "Bearer", 3600⟩, 0⟩
          unauthenticatedState demoStoreFull).2 ≠ some "at1" := by
  refine ⟨rfl, rfl, ?_, rfl, ?_⟩ <;> decide

/-- C10 amended: every failing login step resets the in-memory state to the
unauthenticated error state; the failures before the exchange completes
(missing code, failed exchange) leave the stored token blob untouched, so
the old access token remains obtainable, while the failures after a
successful exchange (missing id_token, decode failure) leave the newly
exchanged record in the store instead of the old one; the tokens key is
never cleared by a failed login, and getAccessToken reads only that key. -/
theorem C10_login_failure_amended (env : LoginEnv) (s : ScalekitAuthState)
    (store : SecureStoreState) :
    (env.browserResult = WebBrowserResult.success none →
      Provider.login env s store =
        (loginFailureState "No authorization code received",
         ⟨store.tokens, store.userInfo, some env.codeVerifier⟩)) ∧
    (∀ c body, env.browserResult = WebBrowserResult.success (some c) →
      env.tokenResponse = HttpTokenResponse.err body →
      Provider.login env s store =
        (loginFailureState ("Token exchange failed: " ++ body),
         ⟨store.tokens, store.userInfo, some env.codeVerifier⟩)) ∧
    (∀ c data, env.browserResult = WebBrowserResult.success (some c) →
      env.tokenResponse = HttpTokenResponse.ok data → data.id_token = none →
      Provider.login env s store =
        (loginFailureState "No id_token received from Scalekit",
         ⟨some (jsonStringify (tokensToJson (exchangedTokens data env.now))),
          store.userInfo, none⟩)) ∧
    (∀ c data bad, env.browserResult = WebBrowserResult.success (some c) →
      env.tokenResponse = HttpTokenResponse.ok data → data.id_token = some bad →
      ScalekitAuth.decodeIdToken bad = Except.error decodeFailedMsg →
      Provider.login env s store =
        (loginFailureState decodeFailedMsg,
         ⟨some (jsonStringify (tokensToJson (exchangedTokens data env.now))),
          store.userInfo, none⟩)) ∧
    (∀ now2 userBlob verifier,
      Provider.getAccessToken now2 ⟨store.tokens, userBlob, verifier⟩ =
        Provider.getAccessToken now2 store) := by
  refine ⟨?_, ?_, ?_, ?_, ?_⟩
  · intro hb
    simp [Provider.login, hb]
  · intro c body hb hr
    simp [Provider.login, hb, hr, ScalekitAuth.exchangeCodeForTokens]
  · intro c data hb hr hid
    simp [Provider.login, hb, hr, hid, ScalekitAuth.exchangeCodeForTokens,
      exchangedTokens]
  · intro c data bad hb hr hid hdec
    simp [Provider.login, hb, hr, hid, hdec, ScalekitAuth.exchangeCodeForTokens,
      ScalekitAuth.getUserInfo, exchangedTokens]
  · intro now2 userBlob verifier
    rfl

/-- C10 witness: a concrete missing-code failure leaves the stored demo
token blob in place. -/
theorem C10_login_failure_amended_witness :
    Provider.login ⟨"ver", WebBrowserResult.success none, HttpTokenResponse.err "x", 0⟩
        unauthenticatedState demoStoreFull =
      (loginFailureState "No authorization code received",
       ⟨demoStoreFull.tokens, demoStoreFull.userInfo, some "ver"⟩) :=
  (C10_login_failure_amended
    ⟨"ver", WebBrowserResult.success none, HttpTokenResponse.err "x", 0⟩
    unauthenticatedState demoStoreFull).1 rfl

end SKModel

